import Mathlib

/-! OpenBGPD (`usr.sbin/bgpd/bgpd.h`): data model and route decision engine

The constants, enumerations and tables below are transcribed from `bgpd.h`.
The bodies of the decision process (`rde_decide.c`), of the filter engine
(`rde_filter.c`), of the control-message runner (`rde.c`, `session.c`) and of
the address-family helpers (`util.c`) are not part of the header; where a
property depends on them they are modelled from the specification and marked
as such in their doc comments.
-/

namespace Bgpd

/-! ## Constants of `bgpd.h` -/

def BGPD_FLAG_NO_EVALUATE : Nat := 0x0002
def BGPD_FLAG_REFLECTOR : Nat := 0x0004
def BGPD_FLAG_NEXTHOP_BGP : Nat := 0x0080
def BGPD_FLAG_NEXTHOP_DEFAULT : Nat := 0x1000
def BGPD_FLAG_DECISION_MASK : Nat := 0x0f00
def BGPD_FLAG_DECISION_ROUTEAGE : Nat := 0x0100
def BGPD_FLAG_DECISION_TRANS_AS : Nat := 0x0200
def BGPD_FLAG_DECISION_MED_ALWAYS : Nat := 0x0400

def RDE_RUNNER_ROUNDS : Nat := 100
def SESSION_CTL_QUEUE_MAX : Nat := 10000

def F_PREF_ELIGIBLE : Nat := 0x01
def F_PREF_ACTIVE : Nat := 0x02
def F_PREF_INTERNAL : Nat := 0x04
def F_PREF_ANNOUNCE : Nat := 0x08
def F_PREF_STALE : Nat := 0x10

/-! ## Candidate paths and the decision process -/

/-- Modelled from the spec: the candidate route of section 3, "tuple of (peer
id, prefix, attribute-set handle, receive timestamp, eligibility flag)", with
the attribute-set handle replaced by the attribute values the decision process
of section 4.2 reads.  `rde.h` (struct prefix, struct rde_aspath) is not part
of the header. The prefix is the key of the RIB entry holding the path. -/
structure Path where
  /-- peer id: key of the path inside its RIB entry -/
  peer : Nat
  /-- derived eligibility (next hop resolvable, no AS loop) -/
  eligible : Bool
  /-- local-preference, higher is better -/
  lpref : Nat
  /-- AS-path length, shorter is better -/
  aspath_len : Nat
  /-- origin code, IGP (0) < EGP (1) < INCOMPLETE (2) -/
  origin : Nat
  /-- multi-exit discriminator, lower is better -/
  med : Nat
  /-- immediate next AS-hop (neighbouring AS) of the AS-path -/
  neighbor_as : Nat
  /-- learned from an external peer (0 = ibgp else ebgp) -/
  ebgp : Bool
  /-- IGP distance to the next hop, lower is better -/
  igp_cost : Nat
  /-- receive timestamp, older (smaller) is better under route-age -/
  received : Nat
  /-- BGP identifier of the announcing peer -/
  remote_id : Nat
  /-- address of the announcing peer -/
  remote_addr : Nat
  /-- path has been announced (F_PREF_ANNOUNCE) -/
  announced : Bool
  /-- path is stale after a graceful restart (F_PREF_STALE) -/
  stale : Bool
  deriving DecidableEq, Repr

/-- Modelled from the spec: the configuration the decision process consults,
the `flags` word of `struct bgpd_config` and the "always ignore AS-path
length" policy flag of step 3 (which has no bit in this header). -/
structure DecisionConfig where
  flags : Nat
  ignore_aspath_len : Bool
  deriving DecidableEq, Repr

/-- Prefer the larger value: `.gt` when the first argument wins. -/
def preferHigher (a b : Nat) : Ordering := compare a b

/-- Prefer the smaller value: `.gt` when the first argument wins. -/
def preferLower (a b : Nat) : Ordering := compare b a

/-- Prefer `true` over `false`: `.gt` when the first argument wins. -/
def preferTrue (a b : Bool) : Ordering :=
  if a = b then .eq else if a then .gt else .lt

/-- First distinguishing criterion wins (section 4.2, "applied left-to-right"). -/
def firstDistinguishing : List Ordering → Ordering
  | [] => .eq
  | .eq :: rest => firstDistinguishing rest
  | o :: _ => o

/-- Modelled from the spec: step 5 of the decision algorithm of section 4.2
(`rde_decide.c` is not part of the header).  MED is compared only between
paths whose immediate next AS-hop is identical, unless the global "compare
MED always" flag BGPD_FLAG_DECISION_MED_ALWAYS is set. -/
def med_step (cfg : DecisionConfig) (p1 p2 : Path) : Ordering :=
  if cfg.flags &&& BGPD_FLAG_DECISION_MED_ALWAYS ≠ 0 ∨ p1.neighbor_as = p2.neighbor_as then
    preferLower p1.med p2.med
  else .eq

/-- Modelled from the spec: steps 1 to 4 of the decision algorithm of section
4.2 (eligibility, local-preference, AS-path length unless ignored, origin). -/
def earlier_steps (cfg : DecisionConfig) (p1 p2 : Path) : List Ordering :=
  [ preferTrue p1.eligible p2.eligible,
    preferHigher p1.lpref p2.lpref,
    if cfg.ignore_aspath_len then .eq else preferLower p1.aspath_len p2.aspath_len,
    preferLower p1.origin p2.origin ]

/-- Modelled from the spec: steps 6 to 8 of the decision algorithm of section
4.2: external over internal, lowest IGP cost, oldest path under the route-age
flag, then peer BGP identifier and finally lowest peer address. -/
def later_steps (cfg : DecisionConfig) (p1 p2 : Path) : List Ordering :=
  [ preferTrue p1.ebgp p2.ebgp,
    preferLower p1.igp_cost p2.igp_cost,
    if cfg.flags &&& BGPD_FLAG_DECISION_ROUTEAGE ≠ 0 then preferLower p1.received p2.received
    else .eq,
    preferLower p1.remote_id p2.remote_id,
    preferLower p1.remote_addr p2.remote_addr ]

/-- Modelled from the spec: the decision order of section 4.2 (`prefix_cmp` of
`rde_decide.c`, which is not part of the header).  The result is `.gt` when
`p1` is preferred over `p2`, `.lt` when `p2` is preferred. -/
def prefix_cmp (cfg : DecisionConfig) (p1 p2 : Path) : Ordering :=
  firstDistinguishing (earlier_steps cfg p1 p2 ++ med_step cfg p1 p2 :: later_steps cfg p1 p2)

/-- Modelled from the spec: the most preferred path of a candidate list under
`prefix_cmp`; the earlier candidate is kept on a tie. -/
def prefix_best (cfg : DecisionConfig) : List Path → Option Path
  | [] => none
  | p :: rest =>
    match prefix_best cfg rest with
    | none => some p
    | some q => if prefix_cmp cfg q p = .gt then some q else some p

/-! ## RIB store -/

/-- Modelled from the spec: a prefix, the key of a RIB entry "per (AID,
prefix)" with the prefix given by its bits and mask length. -/
structure Pfx where
  aid : Nat
  bits : Nat
  len : Nat
  deriving DecidableEq, Repr

/-- Modelled from the spec: the RIB entry of section 3, "the set of candidate
paths (keyed by peer id) plus a pointer to the currently selected best path
(or none)" (`struct rib_entry` of `rde.h` is not part of the header).  The
pointer is the key of the selected path. -/
structure rib_entry where
  pfx : Pfx
  paths : List Path
  active : Option Nat
  deriving DecidableEq, Repr

/-- Modelled from the spec: the local recomputation of section 4.2, scoped to
one candidate set.  The best path is the most preferred candidate; it is
undefined when the candidate set is empty or all candidates are ineligible. -/
def prefix_evaluate (cfg : DecisionConfig) (pfx : Pfx) (paths : List Path) : rib_entry :=
  { pfx := pfx, paths := paths,
    active := match prefix_best cfg paths with
      | some p => if p.eligible then some p.peer else none
      | none => none }

/-- Remove the candidate contributed by `peer` from a candidate set. -/
def path_remove (peer : Nat) (paths : List Path) : List Path :=
  paths.filter (fun p => p.peer ≠ peer)

/-- Modelled from the spec: inbound events of section 4.4 that change the
candidate sets: route announce, route withdraw and session-down. -/
inductive Event where
  | announce (pfx : Pfx) (p : Path)
  | withdraw (peer : Nat) (pfx : Pfx)
  | session_down (peer : Nat)
  deriving DecidableEq, Repr

/-- Modelled from the spec: insert a candidate into the RIB.  An announcement
for a prefix the peer already has a path for is an implicit replace,
"remove-old-candidate-then-insert-new within a single recomputation"; the
entry is created on first path insertion. -/
def rib_announce (cfg : DecisionConfig) (pfx : Pfx) (p : Path) : List rib_entry → List rib_entry
  | [] => [prefix_evaluate cfg pfx [p]]
  | e :: rest =>
    if e.pfx = pfx then prefix_evaluate cfg pfx (p :: path_remove p.peer e.paths) :: rest
    else e :: rib_announce cfg pfx p rest

/-- Modelled from the spec: remove the candidate of `peer` from one entry and
recompute; the entry is destroyed when its candidate set becomes empty. -/
def entry_remove (cfg : DecisionConfig) (peer : Nat) (e : rib_entry) : Option rib_entry :=
  match path_remove peer e.paths with
  | [] => none
  | p :: ps => some (prefix_evaluate cfg e.pfx (p :: ps))

/-- Modelled from the spec: withdraw the path of `peer` for `pfx`. -/
def rib_withdraw (cfg : DecisionConfig) (peer : Nat) (pfx : Pfx) (rib : List rib_entry) :
    List rib_entry :=
  rib.filterMap (fun e => if e.pfx = pfx then entry_remove cfg peer e else some e)

/-- Modelled from the spec: session-down removes all candidate paths of the
peer from every entry. -/
def rib_session_down (cfg : DecisionConfig) (peer : Nat) (rib : List rib_entry) :
    List rib_entry :=
  rib.filterMap (entry_remove cfg peer)

/-- One step of the RIB on an inbound event. -/
def rib_step (cfg : DecisionConfig) (rib : List rib_entry) : Event → List rib_entry
  | .announce pfx p => rib_announce cfg pfx p rib
  | .withdraw peer pfx => rib_withdraw cfg peer pfx rib
  | .session_down peer => rib_session_down cfg peer rib

/-- The RIB reached from the empty RIB by a sequence of events. -/
def rib_run (cfg : DecisionConfig) (evs : List Event) : List rib_entry :=
  evs.foldl (rib_step cfg) []

/-- Modelled from the spec: the status flags of the control query result
record (`struct ctl_show_rib`, field `flags`) reported for path `p` of entry
`e`: eligible, active (the entry's best-path pointer designates `p`),
internal, announced, stale.  The flags field is 16 bits wide. -/
def ctl_flags (e : rib_entry) (p : Path) : Nat :=
  ((if p.eligible then F_PREF_ELIGIBLE else 0) |||
   (if e.active = some p.peer then F_PREF_ACTIVE else 0) |||
   (if p.ebgp then 0 else F_PREF_INTERNAL) |||
   (if p.announced then F_PREF_ANNOUNCE else 0) |||
   (if p.stale then F_PREF_STALE else 0)) % 2 ^ 16

/-- The paths of an entry that are reported with F_PREF_ACTIVE. -/
def active_paths (e : rib_entry) : List Path :=
  e.paths.filter (fun p => ctl_flags e p &&& F_PREF_ACTIVE ≠ 0)

/-- Candidate sets are keyed by peer id: no two paths of an entry share a peer. -/
def rib_keyed (rib : List rib_entry) : Prop :=
  ∀ e ∈ rib, (e.paths.map Path.peer).Nodup

/-! ### Scenario A of section 8 -/

/-- A configuration with no decision flag set. -/
def cfg_default : DecisionConfig := { flags := 0, ignore_aspath_len := false }

/-- The prefix 10.0.0.0/24 (AID_INET). -/
def pfx_10_0_0_0_24 : Pfx := { aid := 1, bits := 0x0a000000, len := 24 }

/-- Peer X (AS 65001) announces with local-preference 100. -/
def path_X : Path :=
  { peer := 1, eligible := true, lpref := 100, aspath_len := 1, origin := 0, med := 0,
    neighbor_as := 65001, ebgp := true, igp_cost := 0, received := 10, remote_id := 1,
    remote_addr := 1, announced := false, stale := false }

/-- Peer Y (AS 65002) announces with local-preference 150. -/
def path_Y : Path :=
  { peer := 2, eligible := true, lpref := 150, aspath_len := 1, origin := 0, med := 0,
    neighbor_as := 65002, ebgp := true, igp_cost := 0, received := 20, remote_id := 2,
    remote_addr := 2, announced := false, stale := false }

/-- Both peers announce the prefix; X then re-announces it (implicit replace). -/
def scenario_A_events : List Event :=
  [.announce pfx_10_0_0_0_24 path_X, .announce pfx_10_0_0_0_24 path_Y,
   .announce pfx_10_0_0_0_24 path_X]

/-- The entry of 10.0.0.0/24 after scenario A: the path of Y is selected. -/
def scenario_A_entry : rib_entry :=
  { pfx := pfx_10_0_0_0_24, paths := [path_X, path_Y], active := some 2 }

/-! ### Paths tied on the first four criteria -/

/-- A path via neighbouring AS 65001 with MED 50. -/
def path_med_A : Path :=
  { peer := 1, eligible := true, lpref := 100, aspath_len := 2, origin := 0, med := 50,
    neighbor_as := 65001, ebgp := true, igp_cost := 0, received := 10, remote_id := 9,
    remote_addr := 9, announced := false, stale := false }

/-- A path via neighbouring AS 65002 with MED 10, otherwise tied with
`path_med_A` up to the peer identifier. -/
def path_med_B : Path :=
  { peer := 2, eligible := true, lpref := 100, aspath_len := 2, origin := 0, med := 10,
    neighbor_as := 65002, ebgp := true, igp_cost := 0, received := 20, remote_id := 11,
    remote_addr := 11, announced := false, stale := false }

/-! ## Filter engine -/

/-- Filter verdicts (`enum filter_actions`). -/
inductive filter_actions where
  | ACTION_NONE
  | ACTION_ALLOW
  | ACTION_DENY
  deriving DecidableEq, Repr

/-- Kind of AS-path length match (`enum aslen_spec`). -/
inductive aslen_spec where
  | ASLEN_NONE
  | ASLEN_MAX
  | ASLEN_SEQ
  deriving DecidableEq, Repr

/-- AS-path length match of a rule (`struct filter_aslen`). -/
structure filter_aslen where
  aslen : Nat
  type : aslen_spec
  deriving DecidableEq, Repr

/-- Modelled from the spec: the route a rule chain is evaluated against, "a
(prefix, attribute-set)" pair; `aspath_seq` is the longest run of one AS in the
AS-path, the quantity an ASLEN_SEQ match inspects. -/
structure Route where
  pfx : Pfx
  attrs : Path
  aspath_seq : Nat

/-- The match predicate of a rule (`struct filter_match`): the AS-path length
match of the header, and the conjunction of the remaining criteria (prefix,
prefix length, next hop, AS, community, extended community) as a predicate on
the route. -/
structure filter_match where
  aslen : filter_aslen
  others : Route → Bool

/-- A filter rule (`struct filter_rule`): match predicate, action and quick
flag (`u_int8_t quick`). -/
structure filter_rule where
  match_ : filter_match
  action : filter_actions
  quick : Nat

/-- Modelled from the spec: the "AS-path length with operator" match
(`aspath_lenmatch` of `rde_attr.c` is not part of the header): no constraint
for ASLEN_NONE, AS-path length above the bound for ASLEN_MAX, longest run of
one AS above the bound for ASLEN_SEQ. -/
def aspath_lenmatch (r : Route) (m : filter_aslen) : Bool :=
  match m.type with
  | .ASLEN_NONE => true
  | .ASLEN_MAX => decide (m.aslen < r.attrs.aspath_len)
  | .ASLEN_SEQ => decide (m.aslen < r.aspath_seq)

/-- Modelled from the spec: a rule's match predicate is satisfied when every
criterion it sets is (`rde_filter_match` of `rde_filter.c` is not part of the
header). -/
def rde_filter_match (f : filter_rule) (r : Route) : Bool :=
  aspath_lenmatch r f.match_.aslen && f.match_.others r

/-- Modelled from the spec: evaluation of a rule chain in declared order with
current verdict `verdict` (section 4.3; `rde_filter` of `rde_filter.c` is not
part of the header): "for each rule whose match predicate is satisfied, if
quick is set, stop and apply that rule's action immediately; otherwise
remember it as the current verdict and continue". -/
def rde_filter_from (verdict : filter_actions) : List filter_rule → Route → filter_actions
  | [], _ => verdict
  | f :: rest, r =>
    if rde_filter_match f r then
      if f.quick ≠ 0 then f.action else rde_filter_from f.action rest r
    else rde_filter_from verdict rest r

/-- Modelled from the spec: filter evaluation; "if no rule matches, the RIB's
default policy (allow or deny, configurable) applies". -/
def rde_filter (default_policy : filter_actions) (rules : List filter_rule) (r : Route) :
    filter_actions :=
  rde_filter_from default_policy rules r

/-- The rule of scenario C: quick, deny, AS-path length above 5, no other
criterion set. -/
def rule_quick_deny_aslen5 : filter_rule :=
  { match_ := { aslen := { aslen := 5, type := .ASLEN_MAX }, others := fun _ => true },
    action := .ACTION_DENY, quick := 1 }

/-- A rule without quick that allows every route. -/
def rule_allow_all : filter_rule :=
  { match_ := { aslen := { aslen := 0, type := .ASLEN_NONE }, others := fun _ => true },
    action := .ACTION_ALLOW, quick := 0 }

/-- A route for 10.0.0.0/24 with the given AS-path length. -/
def route_with_aslen (n : Nat) : Route :=
  { pfx := pfx_10_0_0_0_24, attrs := { path_X with aspath_len := n }, aspath_seq := 1 }

/-! ## Control-message backpressure -/

/-- Modelled from the spec: what happens in one scheduling turn of the control
channel from the RDE to the session engine (`rde.c` and `session.c` are not
part of the header): a poll round in which the RDE has `pending` control
messages left to generate, or the consumer taking `n` messages off the
session engine's queue. -/
inductive ctl_event where
  | rde_round (pending : Nat)
  | drain (n : Nat)
  deriving DecidableEq, Repr

/-- Modelled from the spec: the number of control messages the RDE generates
in one poll round, limited by RDE_RUNNER_ROUNDS ("the RDE limit defines how
many imsg are generated in one poll round"). -/
def rde_runner (pending : Nat) : Nat := min pending RDE_RUNNER_ROUNDS

/-- Modelled from the spec: the session engine polls the RDE control socket
only while its queue is below SESSION_CTL_QUEUE_MAX ("if the SE limit is hit
the RDE control socket will no longer be polled"). -/
def se_polls_rde_ctl (queued : Nat) : Bool := decide (queued < SESSION_CTL_QUEUE_MAX)

/-- Modelled from the spec: one step of the session engine's control queue
length. -/
def ctl_step (queued : Nat) : ctl_event → Nat
  | .rde_round pending => if se_polls_rde_ctl queued then queued + rde_runner pending else queued
  | .drain n => queued - n

/-- The queue length reached from the empty queue by a sequence of events. -/
def ctl_run (evs : List ctl_event) : Nat := evs.foldl ctl_step 0

/-! ## Enumerations of `bgpd.h` -/

/-- Values of the enumerators of a C enumeration, in declaration order: an
enumerator with an initialiser takes that value, one without takes the value
of its predecessor plus one, and the first one zero. -/
def enum_assign {α : Type} : Nat → List (α × Option Nat) → List (α × Nat)
  | _, [] => []
  | next, (x, none) :: rest => (x, next) :: enum_assign (next + 1) rest
  | _, (x, some v) :: rest => (x, v) :: enum_assign (v + 1) rest

/-- The enumerators of a declaration, in declaration order. -/
def enum_names {α : Type} (decl : List (α × Option Nat)) : List α := decl.map Prod.fst

/-- The values of a declaration, in declaration order. -/
def enum_values {α : Type} (decl : List (α × Option Nat)) : List Nat :=
  (enum_assign 0 decl).map Prod.snd

/-- The numeric code of an enumerator under a declaration. -/
def enum_code {α : Type} [BEq α] (decl : List (α × Option Nat)) (x : α) : Option Nat :=
  (enum_assign 0 decl).lookup x

/-- Control result codes (`enum ctl_results`). -/
inductive ctl_results where
  | CTL_RES_OK
  | CTL_RES_NOSUCHPEER
  | CTL_RES_DENIED
  | CTL_RES_NOCAP
  | CTL_RES_PARSE_ERROR
  | CTL_RES_PENDING
  | CTL_RES_NOMEM
  deriving DecidableEq, Repr

/-- The declaration of `enum ctl_results`: no enumerator has an initialiser. -/
def ctl_results_decl : List (ctl_results × Option Nat) :=
  [(.CTL_RES_OK, none), (.CTL_RES_NOSUCHPEER, none), (.CTL_RES_DENIED, none),
   (.CTL_RES_NOCAP, none), (.CTL_RES_PARSE_ERROR, none), (.CTL_RES_PENDING, none),
   (.CTL_RES_NOMEM, none)]

/-- The result/status codes in the order section 6 of the spec lists them: "OK,
no-such-peer, denied, no-capability, parse-error, pending, out-of-memory". -/
def spec_ctl_results : List ctl_results :=
  [.CTL_RES_OK, .CTL_RES_NOSUCHPEER, .CTL_RES_DENIED, .CTL_RES_NOCAP, .CTL_RES_PARSE_ERROR,
   .CTL_RES_PENDING, .CTL_RES_NOMEM]

/-- Error classes (`enum err_codes`). -/
inductive err_codes where
  | ERR_HEADER
  | ERR_OPEN
  | ERR_UPDATE
  | ERR_HOLDTIMEREXPIRED
  | ERR_FSM
  | ERR_CEASE
  deriving DecidableEq, Repr

/-- The declaration of `enum err_codes`: `ERR_HEADER = 1`. -/
def err_codes_decl : List (err_codes × Option Nat) :=
  [(.ERR_HEADER, some 1), (.ERR_OPEN, none), (.ERR_UPDATE, none),
   (.ERR_HOLDTIMEREXPIRED, none), (.ERR_FSM, none), (.ERR_CEASE, none)]

/-- Update error subcodes (`enum suberr_update`). -/
inductive suberr_update where
  | ERR_UPD_UNSPECIFIC
  | ERR_UPD_ATTRLIST
  | ERR_UPD_UNKNWN_WK_ATTR
  | ERR_UPD_MISSNG_WK_ATTR
  | ERR_UPD_ATTRFLAGS
  | ERR_UPD_ATTRLEN
  | ERR_UPD_ORIGIN
  | ERR_UPD_LOOP
  | ERR_UPD_NEXTHOP
  | ERR_UPD_OPTATTR
  | ERR_UPD_NETWORK
  | ERR_UPD_ASPATH
  deriving DecidableEq, Repr

/-- The declaration of `enum suberr_update`: no enumerator has an initialiser. -/
def suberr_update_decl : List (suberr_update × Option Nat) :=
  [(.ERR_UPD_UNSPECIFIC, none), (.ERR_UPD_ATTRLIST, none), (.ERR_UPD_UNKNWN_WK_ATTR, none),
   (.ERR_UPD_MISSNG_WK_ATTR, none), (.ERR_UPD_ATTRFLAGS, none), (.ERR_UPD_ATTRLEN, none),
   (.ERR_UPD_ORIGIN, none), (.ERR_UPD_LOOP, none), (.ERR_UPD_NEXTHOP, none),
   (.ERR_UPD_OPTATTR, none), (.ERR_UPD_NETWORK, none), (.ERR_UPD_ASPATH, none)]

/-- Cease subcodes (`enum suberr_cease`). -/
inductive suberr_cease where
  | ERR_CEASE_MAX_PREFIX
  | ERR_CEASE_ADMIN_DOWN
  | ERR_CEASE_PEER_UNCONF
  | ERR_CEASE_ADMIN_RESET
  | ERR_CEASE_CONN_REJECT
  | ERR_CEASE_OTHER_CHANGE
  | ERR_CEASE_COLLISION
  | ERR_CEASE_RSRC_EXHAUST
  deriving DecidableEq, Repr

/-- The declaration of `enum suberr_cease`: `ERR_CEASE_MAX_PREFIX = 1`. -/
def suberr_cease_decl : List (suberr_cease × Option Nat) :=
  [(.ERR_CEASE_MAX_PREFIX, some 1), (.ERR_CEASE_ADMIN_DOWN, none),
   (.ERR_CEASE_PEER_UNCONF, none), (.ERR_CEASE_ADMIN_RESET, none),
   (.ERR_CEASE_CONN_REJECT, none), (.ERR_CEASE_OTHER_CHANGE, none),
   (.ERR_CEASE_COLLISION, none), (.ERR_CEASE_RSRC_EXHAUST, none)]

/-- The error classes in the order section 7 of the spec lists them: "header
error, open error, update error, hold-timer-expired, finite-state-machine
error, and cease". -/
def spec_err_classes : List err_codes :=
  [.ERR_HEADER, .ERR_OPEN, .ERR_UPDATE, .ERR_HOLDTIMEREXPIRED, .ERR_FSM, .ERR_CEASE]

/-- The update-error subtypes in the order section 7 of the spec lists them:
"malformed attribute list, unrecognized well-known attribute, missing
well-known attribute, attribute-flags error, attribute-length error, invalid
origin, AS-path loop, invalid next-hop, optional-attribute error, invalid
network field, malformed AS-path". -/
def spec_update_subtypes : List suberr_update :=
  [.ERR_UPD_ATTRLIST, .ERR_UPD_UNKNWN_WK_ATTR, .ERR_UPD_MISSNG_WK_ATTR, .ERR_UPD_ATTRFLAGS,
   .ERR_UPD_ATTRLEN, .ERR_UPD_ORIGIN, .ERR_UPD_LOOP, .ERR_UPD_NEXTHOP, .ERR_UPD_OPTATTR,
   .ERR_UPD_NETWORK, .ERR_UPD_ASPATH]

/-- The cease subtypes in the order section 7 of the spec lists them:
"max-prefix exceeded, administratively down, peer de-configured,
administrative reset, connection rejected, other configuration change,
connection collision, resource exhaustion". -/
def spec_cease_subtypes : List suberr_cease :=
  [.ERR_CEASE_MAX_PREFIX, .ERR_CEASE_ADMIN_DOWN, .ERR_CEASE_PEER_UNCONF,
   .ERR_CEASE_ADMIN_RESET, .ERR_CEASE_CONN_REJECT, .ERR_CEASE_OTHER_CHANGE,
   .ERR_CEASE_COLLISION, .ERR_CEASE_RSRC_EXHAUST]

/-- The taxonomy of section 7 is exhaustive: every enumerator the program
declares for an error class, an update-error subcode or a cease subcode is one
the spec lists. -/
def taxonomy_exhaustive : Prop :=
  (∀ c ∈ enum_names err_codes_decl, c ∈ spec_err_classes) ∧
  (∀ u ∈ enum_names suberr_update_decl, u ∈ spec_update_subtypes) ∧
  (∀ c ∈ enum_names suberr_cease_decl, c ∈ spec_cease_subtypes)

/-! ## Path status flags of the control query result record -/

/-- The five path statuses reported in `ctl_show_rib.flags`. -/
inductive pref_status where
  | eligible
  | active
  | internal
  | announced
  | stale
  deriving DecidableEq, Repr

/-- The mask of a status: F_PREF_ELIGIBLE .. F_PREF_STALE. -/
def pref_mask : pref_status → Nat
  | .eligible => F_PREF_ELIGIBLE
  | .active => F_PREF_ACTIVE
  | .internal => F_PREF_INTERNAL
  | .announced => F_PREF_ANNOUNCE
  | .stale => F_PREF_STALE

/-- The bit position of a status inside the flags field. -/
def pref_bit : pref_status → Nat
  | .eligible => 0
  | .active => 1
  | .internal => 2
  | .announced => 3
  | .stale => 4

/-- All five statuses. -/
def pref_statuses : List pref_status := [.eligible, .active, .internal, .announced, .stale]

/-- OR the masks of the statuses of `S` into an empty 16-bit flags field
(`u_int16_t flags` of `struct ctl_show_rib`). -/
def pref_flags_of (S : List pref_status) : Nat :=
  (S.foldl (fun f s => f ||| pref_mask s) 0) % 2 ^ 16

/-- Test a status mask against a flags field, `flags & mask`. -/
def pref_flag_test (flags : Nat) (s : pref_status) : Bool :=
  decide (flags &&& pref_mask s ≠ 0)

/-! ## Address families -/

def AFI_UNSPEC : Nat := 0
def AFI_IPv4 : Nat := 1
def AFI_IPv6 : Nat := 2

def SAFI_NONE : Nat := 0
def SAFI_UNICAST : Nat := 1
def SAFI_MULTICAST : Nat := 2
def SAFI_MPLS : Nat := 4
def SAFI_MPLSVPN : Nat := 128

/-- The socket address families named by AID_VALS (`sa_family_t`; their
numeric values come from the system headers and are not used here). -/
inductive sa_family where
  | AF_UNSPEC
  | AF_INET
  | AF_INET6
  deriving DecidableEq, Repr

/-- A row of the address-family table (`struct aid`). -/
structure aid where
  afi : Nat
  af : sa_family
  safi : Nat
  name : String
  deriving DecidableEq, Repr

def AID_UNSPEC : Nat := 0
def AID_INET : Nat := 1
def AID_INET6 : Nat := 2
def AID_VPN_IPv4 : Nat := 3
def AID_MAX : Nat := 4
def AID_MIN : Nat := 1

/-- The address-family table (`AID_VALS`, the initialiser of `aid_vals[]`). -/
def aid_vals : List aid :=
  [ { afi := AFI_UNSPEC, af := .AF_UNSPEC, safi := SAFI_NONE, name := "unspec" },
    { afi := AFI_IPv4, af := .AF_INET, safi := SAFI_UNICAST, name := "IPv4 unicast" },
    { afi := AFI_IPv6, af := .AF_INET6, safi := SAFI_UNICAST, name := "IPv6 unicast" },
    { afi := AFI_IPv4, af := .AF_INET, safi := SAFI_MPLSVPN, name := "IPv4 vpn" } ]

/-- Modelled from the spec: `aid2afi` (declared in the header, defined in
`util.c`, which is not part of it): the (AFI, SAFI) pair of the table row of an
AID below AID_MAX, and failure for any other AID. -/
def aid2afi (a : Nat) : Option (Nat × Nat) :=
  if a < AID_MAX then (aid_vals[a]?).map (fun r => (r.afi, r.safi)) else none

/-- Modelled from the spec: `afi2aid` (declared in the header, defined in
`util.c`, which is not part of it): the first AID below AID_MAX whose table row
carries the given (AFI, SAFI) pair, and failure when there is none. -/
def afi2aid (afi safi : Nat) : Option Nat :=
  (List.range AID_MAX).find? (fun i =>
    match aid_vals[i]? with
    | some r => r.afi == afi && r.safi == safi
    | none => false)

/-! ## Address storage -/

/-- A member of a C aggregate: `count` elements of `size` bytes each, aligned
to `align` bytes (`count` is 1 for a scalar member). -/
structure c_member where
  size : Nat
  align : Nat
  count : Nat
  deriving DecidableEq, Repr

/-- The bytes a member occupies. -/
def member_bytes (m : c_member) : Nat := m.size * m.count

/-- Round an offset up to a multiple of `align`. -/
def round_up (off align : Nat) : Nat := (off + align - 1) / align * align

/-- The bytes the members of a struct occupy without any padding: a lower
bound of its size under every ABI. -/
def fields_bytes (fields : List c_member) : Nat := (fields.map member_bytes).sum

/-- The alignment of an aggregate: the largest alignment of its members. -/
def aggregate_align (members : List c_member) : Nat :=
  members.foldl (fun a m => max a m.align) 1

/-- The size of a struct: each member placed at the next offset that is a
multiple of its alignment, the total rounded up to the struct's alignment. -/
def struct_sizeof (fields : List c_member) : Nat :=
  round_up (fields.foldl (fun off m => round_up off m.align + member_bytes m) 0)
    (aggregate_align fields)

/-- The size of a union: the size of its largest member, rounded up to the
union's alignment. -/
def union_sizeof (members : List c_member) : Nat :=
  round_up (members.foldl (fun sz m => max sz (member_bytes m)) 0) (aggregate_align members)

/-- An IPv4 address (`struct in_addr` of the system headers): one 32-bit word. -/
def in_addr_member : c_member := { size := 4, align := 4, count := 1 }

/-- An IPv6 address (`struct in6_addr` of the system headers): 128 bits, with
32-bit alignment. -/
def in6_addr_member : c_member := { size := 16, align := 4, count := 1 }

/-- The members of `struct vpn4_addr`, with natural alignment: `u_int64_t rd`,
`struct in_addr addr`, `u_int8_t labelstack[21]`, `u_int8_t labellen`,
`u_int8_t pad1`, `u_int8_t pad2`. -/
def vpn4_addr_fields : List c_member :=
  [ { size := 8, align := 8, count := 1 },
    in_addr_member,
    { size := 1, align := 1, count := 21 },
    { size := 1, align := 1, count := 1 },
    { size := 1, align := 1, count := 1 },
    { size := 1, align := 1, count := 1 } ]

/-- The member `vpn4` of the union `ba`. -/
def vpn4_member : c_member :=
  { size := struct_sizeof vpn4_addr_fields, align := aggregate_align vpn4_addr_fields,
    count := 1 }

/-- The raw views of the union `ba`: `u_int8_t addr8[32]`. -/
def addr8_member : c_member := { size := 1, align := 1, count := 32 }

/-- The raw views of the union `ba`: `u_int16_t addr16[16]`. -/
def addr16_member : c_member := { size := 2, align := 2, count := 16 }

/-- The raw views of the union `ba`: `u_int32_t addr32[8]`. -/
def addr32_member : c_member := { size := 4, align := 4, count := 8 }

/-- The members of the union `ba` of `struct bgpd_addr`. -/
def bgpd_addr_ba : List c_member :=
  [in_addr_member, in6_addr_member, vpn4_member, addr8_member, addr16_member, addr32_member]

/-- The raw storage view is 256 bits and every address variant (IPv4, IPv6,
VPN-IPv4) occupies at most its 32 bytes. -/
def addr_variants_fit_raw_view : Prop :=
  member_bytes addr8_member = 32 ∧ member_bytes addr16_member = 32 ∧
  member_bytes addr32_member = 32 ∧
  member_bytes in_addr_member ≤ 32 ∧ member_bytes in6_addr_member ≤ 32 ∧
  member_bytes vpn4_member ≤ 32

/-! ## Extended communities -/

def EXT_COMMUNITY_IANA : Nat := 0x80
def EXT_COMMUNITY_TRANSITIVE : Nat := 0x40
def EXT_COMMUNITY_VALUE : Nat := 0x3f

def EXT_COMMUNITY_TWO_AS : Nat := 0
def EXT_COMMUNITY_IPV4 : Nat := 1
def EXT_COMMUNITY_FOUR_AS : Nat := 2
def EXT_COMMUNITY_OPAQUE : Nat := 3

def EXT_COMMUNITY_ROUTE_TGT : Nat := 2
def EXT_CUMMUNITY_ROUTE_ORIG : Nat := 3
def EXT_COMMUNITY_OSPF_DOM_ID : Nat := 5
def EXT_COMMUNITY_OSPF_RTR_TYPE : Nat := 6
def EXT_COMMUNITY_OSPF_RTR_ID : Nat := 7
def EXT_COMMUNITY_BGP_COLLECT : Nat := 8

def EXT_COMMUNITY_OPAQUE_MAX : Nat := 0xffffffffffff
def EXT_COMMUNITY_FLAG_VALID : Nat := 0x01

/-- A 16-bit scalar member (`u_int16_t`). -/
def u16_member : c_member := { size := 2, align := 2, count := 1 }

/-- A 32-bit scalar member (`u_int32_t`). -/
def u32_member : c_member := { size := 4, align := 4, count := 1 }

/-- A 64-bit scalar member (`u_int64_t`). -/
def u64_member : c_member := { size := 8, align := 8, count := 1 }

/-- The width of a member in bits. -/
def member_bits (m : c_member) : Nat := 8 * member_bytes m

/-- The members of `struct ext_as`: `u_int16_t as`, `u_int32_t val`. -/
def ext_as_fields : List c_member := [u16_member, u32_member]

/-- The members of `struct ext_as4`: `u_int32_t as4`, `u_int16_t val`. -/
def ext_as4_fields : List c_member := [u32_member, u16_member]

/-- The members of `struct ext_ip`: `struct in_addr addr`, `u_int16_t val`. -/
def ext_ip_fields : List c_member := [in_addr_member, u16_member]

/-- The member `u_int64_t ext_opaq` of the union `data`, commented "only 48
bits". -/
def ext_opaq_member : c_member := u64_member

/-- The bits of value the members of an encoding carry, padding left out. -/
def value_bits (fields : List c_member) : Nat := (fields.map member_bits).sum

/-- The number of distinct values the members of an encoding can hold. -/
def value_count (fields : List c_member) : Nat := (fields.map (fun m => 2 ^ member_bits m)).prod

/-- A row of the table of IANA-registered extended communities (`struct
ext_comm_pairs`). -/
structure ext_comm_pairs where
  type : Nat
  subtype : Nat
  transitive : Nat
  deriving DecidableEq, Repr

/-- The table `IANA_EXT_COMMUNITIES`. -/
def IANA_EXT_COMMUNITIES : List ext_comm_pairs :=
  [ { type := EXT_COMMUNITY_TWO_AS, subtype := EXT_COMMUNITY_ROUTE_TGT, transitive := 0 },
    { type := EXT_COMMUNITY_TWO_AS, subtype := EXT_CUMMUNITY_ROUTE_ORIG, transitive := 0 },
    { type := EXT_COMMUNITY_TWO_AS, subtype := EXT_COMMUNITY_OSPF_DOM_ID, transitive := 0 },
    { type := EXT_COMMUNITY_TWO_AS, subtype := EXT_COMMUNITY_BGP_COLLECT, transitive := 0 },
    { type := EXT_COMMUNITY_FOUR_AS, subtype := EXT_COMMUNITY_ROUTE_TGT, transitive := 0 },
    { type := EXT_COMMUNITY_FOUR_AS, subtype := EXT_CUMMUNITY_ROUTE_ORIG, transitive := 0 },
    { type := EXT_COMMUNITY_IPV4, subtype := EXT_COMMUNITY_ROUTE_TGT, transitive := 0 },
    { type := EXT_COMMUNITY_IPV4, subtype := EXT_CUMMUNITY_ROUTE_ORIG, transitive := 0 },
    { type := EXT_COMMUNITY_IPV4, subtype := EXT_COMMUNITY_OSPF_RTR_ID, transitive := 0 },
    { type := EXT_COMMUNITY_OPAQUE, subtype := EXT_COMMUNITY_OSPF_RTR_TYPE, transitive := 0 } ]

/-- The four extended type codes. -/
def ext_community_types : List Nat :=
  [EXT_COMMUNITY_TWO_AS, EXT_COMMUNITY_IPV4, EXT_COMMUNITY_FOUR_AS, EXT_COMMUNITY_OPAQUE]

/-- The three parts of an extended-community type byte `b` (`u_int8_t type`):
`b & EXT_COMMUNITY_IANA`, `b & EXT_COMMUNITY_TRANSITIVE`, `b &
EXT_COMMUNITY_VALUE`, OR-ed together again. -/
def ext_type_recombine (b : Nat) : Nat :=
  (b &&& EXT_COMMUNITY_IANA) ||| (b &&& EXT_COMMUNITY_TRANSITIVE) ||| (b &&& EXT_COMMUNITY_VALUE)

/-! ## AS numbers -/

/-- The reserved transition AS ("4-byte magic AS number"). -/
def AS_TRANS : Nat := 23456

/-- The 2-byte AS fields: `bgpd_config.short_as`, `peer_config.local_short_as`
and `session_up.short_as` (`u_int16_t`). -/
def short_as_members : List c_member := [u16_member, u16_member, u16_member]

/-- The 4-byte AS fields: `bgpd_config.as`, `peer_config.remote_as`,
`peer_config.local_as` and `filter_as.as` (`u_int32_t`). -/
def long_as_members : List c_member := [u32_member, u32_member, u32_member, u32_member]

/-- The value read back after storing `v` into an unsigned member. -/
def member_store (m : c_member) (v : Nat) : Nat := v % 2 ^ member_bits m

/-! ## Global configuration flags -/

/-- The seven global configuration flags kept in `bgpd_config.flags`. -/
inductive bgpd_flag where
  | NO_EVALUATE
  | REFLECTOR
  | NEXTHOP_BGP
  | NEXTHOP_DEFAULT
  | DECISION_ROUTEAGE
  | DECISION_TRANS_AS
  | DECISION_MED_ALWAYS
  deriving DecidableEq, Repr

/-- The mask of a global configuration flag. -/
def bgpd_flag_mask : bgpd_flag → Nat
  | .NO_EVALUATE => BGPD_FLAG_NO_EVALUATE
  | .REFLECTOR => BGPD_FLAG_REFLECTOR
  | .NEXTHOP_BGP => BGPD_FLAG_NEXTHOP_BGP
  | .NEXTHOP_DEFAULT => BGPD_FLAG_NEXTHOP_DEFAULT
  | .DECISION_ROUTEAGE => BGPD_FLAG_DECISION_ROUTEAGE
  | .DECISION_TRANS_AS => BGPD_FLAG_DECISION_TRANS_AS
  | .DECISION_MED_ALWAYS => BGPD_FLAG_DECISION_MED_ALWAYS

/-- The three decision-process flags. -/
def decision_flags : List Nat :=
  [BGPD_FLAG_DECISION_ROUTEAGE, BGPD_FLAG_DECISION_TRANS_AS, BGPD_FLAG_DECISION_MED_ALWAYS]

/-- The global configuration flags outside the decision mask. -/
def other_flags : List Nat :=
  [BGPD_FLAG_NO_EVALUATE, BGPD_FLAG_REFLECTOR, BGPD_FLAG_NEXTHOP_BGP, BGPD_FLAG_NEXTHOP_DEFAULT]

/-- Set a flag in a flags word, `f |= x`; the word is the 32-bit pattern of
`int flags`. -/
def flag_set (f x : Nat) : Nat := (f ||| x) % 2 ^ 32

/-- Clear a flag in a flags word, `f &= ~x`; the word is the 32-bit pattern of
`int flags`. -/
def flag_clear (f x : Nat) : Nat := (f &&& (2 ^ 32 - 1 - x)) % 2 ^ 32

/-- Test a flag in a flags word, `f & y`. -/
def flag_test (f y : Nat) : Nat := f &&& y

/-! ## Route and control flags -/

def F_BGPD_INSERTED : Nat := 0x0001
def F_KERNEL : Nat := 0x0002
def F_CONNECTED : Nat := 0x0004
def F_NEXTHOP : Nat := 0x0008
def F_DOWN : Nat := 0x0010
def F_STATIC : Nat := 0x0020
def F_DYNAMIC : Nat := 0x0040
def F_REJECT : Nat := 0x0080
def F_BLACKHOLE : Nat := 0x0100
def F_LONGER : Nat := 0x0200
def F_MPLS : Nat := 0x0400
def F_REDISTRIBUTED : Nat := 0x0800
def F_CTL_DETAIL : Nat := 0x1000
def F_CTL_ADJ_IN : Nat := 0x2000
def F_CTL_ADJ_OUT : Nat := 0x4000
def F_CTL_ACTIVE : Nat := 0x8000

/-- The sixteen route and control flags, in the order of the header. -/
def route_ctl_flags : List Nat :=
  [F_BGPD_INSERTED, F_KERNEL, F_CONNECTED, F_NEXTHOP, F_DOWN, F_STATIC, F_DYNAMIC, F_REJECT,
   F_BLACKHOLE, F_LONGER, F_MPLS, F_REDISTRIBUTED, F_CTL_DETAIL, F_CTL_ADJ_IN, F_CTL_ADJ_OUT,
   F_CTL_ACTIVE]

/-- The bitwise OR of a combination of flags. -/
def flags_or (S : List Nat) : Nat := S.foldl (fun f x => f ||| x) 0

/-- The flags of `route_ctl_flags` that have bit `k` set. -/
def flags_with_bit (k : Nat) : List Nat :=
  route_ctl_flags.filter (fun m => decide (m &&& 2 ^ k ≠ 0))

/-- The 16-bit flags fields `kroute.flags`, `kroute_full.flags` and
`ctl_show_rib_request.flags` (`u_int16_t`). -/
def flags_members : List c_member := [u16_member, u16_member, u16_member]

/-! ## Theorems -/

theorem ctl_flags_active_iff (e : rib_entry) (p : Path) :
    ctl_flags e p &&& F_PREF_ACTIVE ≠ 0 ↔ e.active = some p.peer := by
  unfold ctl_flags
  by_cases h : e.active = some p.peer <;>
    cases p.eligible <;> cases p.ebgp <;> cases p.announced <;> cases p.stale <;>
    simp [h, F_PREF_ACTIVE, F_PREF_ELIGIBLE, F_PREF_INTERNAL, F_PREF_ANNOUNCE, F_PREF_STALE] <;>
    decide

theorem prefix_evaluate_paths (cfg : DecisionConfig) (pfx : Pfx) (paths : List Path) :
    (prefix_evaluate cfg pfx paths).paths = paths := rfl

theorem path_remove_nodup (peer : Nat) (paths : List Path)
    (h : (paths.map Path.peer).Nodup) : ((path_remove peer paths).map Path.peer).Nodup :=
  h.sublist ((List.filter_sublist paths).map Path.peer)

theorem path_remove_not_mem (peer : Nat) (paths : List Path) :
    peer ∉ (path_remove peer paths).map Path.peer := by
  simp [path_remove]

theorem entry_remove_keyed (cfg : DecisionConfig) (peer : Nat) (e e' : rib_entry)
    (h : (e.paths.map Path.peer).Nodup) (he : entry_remove cfg peer e = some e') :
    (e'.paths.map Path.peer).Nodup := by
  unfold entry_remove at he
  have hr := path_remove_nodup peer e.paths h
  split at he
  · cases he
  · rename_i p ps hps
    cases he
    rw [prefix_evaluate_paths, ← hps]
    exact hr

theorem rib_announce_keyed (cfg : DecisionConfig) (pfx : Pfx) (p : Path) (rib : List rib_entry)
    (h : rib_keyed rib) : rib_keyed (rib_announce cfg pfx p rib) := by
  induction rib with
  | nil =>
    intro e he
    simp only [rib_announce, List.mem_singleton] at he
    subst he
    simp [prefix_evaluate_paths]
  | cons e rest ih =>
    have hrest : rib_keyed rest := fun x hx => h x (List.mem_cons_of_mem _ hx)
    intro x hx
    unfold rib_announce at hx
    split at hx
    · rcases List.mem_cons.mp hx with hx | hx
      · subst hx
        rw [prefix_evaluate_paths, List.map_cons, List.nodup_cons]
        exact ⟨path_remove_not_mem _ _, path_remove_nodup _ _ (h e (List.mem_cons_self _ _))⟩
      · exact hrest x hx
    · rcases List.mem_cons.mp hx with hx | hx
      · subst hx
        exact h _ (List.mem_cons_self _ _)
      · exact ih hrest x hx

theorem rib_step_keyed (cfg : DecisionConfig) (rib : List rib_entry) (ev : Event)
    (h : rib_keyed rib) : rib_keyed (rib_step cfg rib ev) := by
  cases ev with
  | announce pfx p => exact rib_announce_keyed cfg pfx p rib h
  | withdraw peer pfx =>
    intro x hx
    simp only [rib_step, rib_withdraw, List.mem_filterMap] at hx
    obtain ⟨e, he, hex⟩ := hx
    split at hex
    · exact entry_remove_keyed cfg peer e x (h e he) hex
    · cases hex
      exact h _ he
  | session_down peer =>
    intro x hx
    simp only [rib_step, rib_session_down, List.mem_filterMap] at hx
    obtain ⟨e, he, hex⟩ := hx
    exact entry_remove_keyed cfg peer e x (h e he) hex

theorem rib_foldl_keyed (cfg : DecisionConfig) (evs : List Event) (rib : List rib_entry)
    (h : rib_keyed rib) : rib_keyed (evs.foldl (rib_step cfg) rib) := by
  induction evs generalizing rib with
  | nil => exact h
  | cons ev rest ih => exact ih _ (rib_step_keyed cfg rib ev h)

theorem filter_key_length_le_one (a : Nat) (paths : List Path)
    (h : (paths.map Path.peer).Nodup) :
    (paths.filter (fun p => decide (some a = some p.peer))).length ≤ 1 := by
  induction paths with
  | nil => simp
  | cons p ps ih =>
    rw [List.map_cons, List.nodup_cons] at h
    by_cases hp : a = p.peer
    · have hnone : ps.filter (fun q => decide (some a = some q.peer)) = [] := by
        rw [List.filter_eq_nil_iff]
        intro q hq hqa
        simp only [Option.some.injEq, decide_eq_true_eq] at hqa
        exact h.1 (List.mem_map.mpr ⟨q, hq, by rw [← hqa, hp]⟩)
      simp [List.filter_cons, hp, hnone]
      simpa [hp] using hnone
    · simpa [List.filter_cons, hp] using ih h.2

/-- C1. In every RIB state reached from the empty RIB by announce, withdraw,
implicit-replace and session-down events, every RIB entry has at most one
candidate path reported with the active status flag F_PREF_ACTIVE. -/
theorem rib_at_most_one_active (cfg : DecisionConfig) (evs : List Event) (e : rib_entry)
    (he : e ∈ rib_run cfg evs) : (active_paths e).length ≤ 1 := by
  have hk : (e.paths.map Path.peer).Nodup :=
    rib_foldl_keyed cfg evs [] (fun _ hx => absurd hx (List.not_mem_nil _)) e he
  have hf : active_paths e = e.paths.filter (fun p => decide (e.active = some p.peer)) := by
    unfold active_paths
    congr 1
    funext p
    exact decide_eq_decide.mpr (ctl_flags_active_iff e p)
  rw [hf]
  cases hact : e.active with
  | none => simp
  | some a => exact filter_key_length_le_one a e.paths hk

/-- Scenario A reaches an entry with two candidates, exactly one of them active. -/
theorem rib_at_most_one_active_witness :
    scenario_A_entry ∈ rib_run cfg_default scenario_A_events ∧
      (active_paths scenario_A_entry).length ≤ 1 :=
  ⟨by decide, rib_at_most_one_active cfg_default scenario_A_events scenario_A_entry (by decide)⟩

theorem firstDistinguishing_append (l r : List Ordering) (h : firstDistinguishing l ≠ .eq) :
    firstDistinguishing (l ++ r) = firstDistinguishing l := by
  induction l with
  | nil => exact absurd rfl h
  | cons o rest ih =>
    cases o with
    | eq => exact ih h
    | lt => rfl
    | gt => rfl

/-- C2. Two candidate paths whose immediate neighbouring AS differs are not
MED-compared unless BGPD_FLAG_DECISION_MED_ALWAYS is set: without the flag
the MED step does not distinguish them and the decision is the same for any
MED values, while with the flag the lower MED is preferred at that step; and
for paths already ordered by an earlier criterion (eligibility,
local-preference, AS-path length, origin) toggling the flag leaves the
decision unchanged. -/
theorem med_compare_gated :
    (∀ (cfg : DecisionConfig) (p1 p2 : Path) (m1 m2 : Nat),
      p1.neighbor_as ≠ p2.neighbor_as → cfg.flags &&& BGPD_FLAG_DECISION_MED_ALWAYS = 0 →
        med_step cfg p1 p2 = .eq ∧
        prefix_cmp cfg { p1 with med := m1 } { p2 with med := m2 } = prefix_cmp cfg p1 p2) ∧
    (∀ (cfg : DecisionConfig) (p1 p2 : Path),
      cfg.flags &&& BGPD_FLAG_DECISION_MED_ALWAYS ≠ 0 →
        med_step cfg p1 p2 = preferLower p1.med p2.med) ∧
    (∀ (cfg : DecisionConfig) (p1 p2 : Path),
      firstDistinguishing (earlier_steps cfg p1 p2) ≠ .eq →
        prefix_cmp { cfg with flags := cfg.flags ^^^ BGPD_FLAG_DECISION_MED_ALWAYS } p1 p2 =
          prefix_cmp cfg p1 p2) := by
  refine ⟨?_, ?_, ?_⟩
  · intro cfg p1 p2 m1 m2 hn hf
    constructor
    · simp [med_step, hf, hn]
    · simp [prefix_cmp, med_step, earlier_steps, later_steps, hf, hn]
  · intro cfg p1 p2 hf
    simp [med_step, hf]
  · intro cfg p1 p2 h
    have h' : firstDistinguishing
        (earlier_steps { cfg with flags := cfg.flags ^^^ BGPD_FLAG_DECISION_MED_ALWAYS } p1 p2)
          ≠ .eq := h
    unfold prefix_cmp
    rw [firstDistinguishing_append _ _ h, firstDistinguishing_append _ _ h']
    rfl

/-- Paths A and B tie on the first four criteria and have different neighbours:
their MED is ignored without the flag and decides for B with it; X and Y are
ordered by local-preference, so the flag does not matter for them. -/
theorem med_compare_gated_witness :
    (path_med_A.neighbor_as ≠ path_med_B.neighbor_as ∧
      cfg_default.flags &&& BGPD_FLAG_DECISION_MED_ALWAYS = 0 ∧
      (med_step cfg_default path_med_A path_med_B = .eq ∧
        prefix_cmp cfg_default { path_med_A with med := 7 } { path_med_B with med := 3 } =
          prefix_cmp cfg_default path_med_A path_med_B)) ∧
    (({ flags := 0x0400, ignore_aspath_len := false } : DecisionConfig).flags &&&
        BGPD_FLAG_DECISION_MED_ALWAYS ≠ 0 ∧
      med_step { flags := 0x0400, ignore_aspath_len := false } path_med_A path_med_B =
        preferLower path_med_A.med path_med_B.med) ∧
    (firstDistinguishing (earlier_steps cfg_default path_X path_Y) ≠ .eq ∧
      prefix_cmp { cfg_default with flags := cfg_default.flags ^^^ BGPD_FLAG_DECISION_MED_ALWAYS }
          path_X path_Y = prefix_cmp cfg_default path_X path_Y) ∧
    (prefix_cmp cfg_default path_med_A path_med_B = .gt ∧
      prefix_cmp { flags := 0x0400, ignore_aspath_len := false } path_med_A path_med_B = .lt) :=
  ⟨⟨by decide, by decide,
      med_compare_gated.1 cfg_default path_med_A path_med_B 7 3 (by decide) (by decide)⟩,
    ⟨by decide,
      med_compare_gated.2.1 { flags := 0x0400, ignore_aspath_len := false } path_med_A path_med_B
        (by decide)⟩,
    ⟨by decide, med_compare_gated.2.2 cfg_default path_X path_Y (by decide)⟩,
    ⟨by decide, by decide⟩⟩

/-- C3. Filter evaluation walks the rule chain in declared order: it stops at
the first matching rule whose quick flag is set and returns that rule's action
whatever rules follow; a matching rule without quick only replaces the current
verdict and a non-matching rule leaves it, and evaluation continues.  The
quick deny rule on AS-path length above 5 decides every route whose AS-path
length is above 5, and a route with AS-path length 3 is decided by the rules
that follow it. -/
theorem rde_filter_quick_first_match :
    (∀ (pre post : List filter_rule) (f : filter_rule) (r : Route) (v : filter_actions),
      (∀ g ∈ pre, rde_filter_match g r = true → g.quick = 0) →
      rde_filter_match f r = true → f.quick ≠ 0 →
        rde_filter v (pre ++ f :: post) r = f.action) ∧
    (∀ (f : filter_rule) (rest : List filter_rule) (r : Route) (v : filter_actions),
      rde_filter_match f r = true → f.quick = 0 →
        rde_filter v (f :: rest) r = rde_filter f.action rest r) ∧
    (∀ (f : filter_rule) (rest : List filter_rule) (r : Route) (v : filter_actions),
      rde_filter_match f r = false →
        rde_filter v (f :: rest) r = rde_filter v rest r) ∧
    (∀ (rest : List filter_rule) (r : Route) (v : filter_actions),
      5 < r.attrs.aspath_len →
        rde_filter v (rule_quick_deny_aslen5 :: rest) r = .ACTION_DENY) ∧
    (∀ (rest : List filter_rule) (r : Route) (v : filter_actions),
      r.attrs.aspath_len = 3 →
        rde_filter v (rule_quick_deny_aslen5 :: rest) r = rde_filter v rest r) := by
  refine ⟨?_, ?_, ?_, ?_, ?_⟩
  · intro pre post f r v hpre hm hq
    unfold rde_filter
    induction pre generalizing v with
    | nil => simp [rde_filter_from, hm, hq]
    | cons g pre ih =>
      have hrest : ∀ x ∈ pre, rde_filter_match x r = true → x.quick = 0 :=
        fun x hx => hpre x (List.mem_cons_of_mem _ hx)
      by_cases hg : rde_filter_match g r = true
      · have hgq : g.quick = 0 := hpre g (List.mem_cons_self _ _) hg
        simp only [List.cons_append, rde_filter_from, hg, hgq, if_true, ne_eq,
          not_true_eq_false, if_false]
        exact ih _ hrest
      · simp only [List.cons_append, rde_filter_from, hg, if_false]
        exact ih _ hrest
  · intro f rest r v hm hq
    simp [rde_filter, rde_filter_from, hm, hq]
  · intro f rest r v hm
    simp [rde_filter, rde_filter_from, hm]
  · intro rest r v hlen
    simp [rde_filter, rde_filter_from, rde_filter_match, aspath_lenmatch,
      rule_quick_deny_aslen5, hlen]
  · intro rest r v hlen
    simp [rde_filter, rde_filter_from, rde_filter_match, aspath_lenmatch,
      rule_quick_deny_aslen5, hlen]

/-- A route with AS-path length 7 is denied by the quick rule although an allow
rule follows and precedes it; a route with AS-path length 3 falls through. -/
theorem rde_filter_quick_first_match_witness :
    ((∀ g ∈ [rule_allow_all], rde_filter_match g (route_with_aslen 7) = true → g.quick = 0) ∧
      rde_filter_match rule_quick_deny_aslen5 (route_with_aslen 7) = true ∧
      rule_quick_deny_aslen5.quick ≠ 0 ∧
      rde_filter .ACTION_ALLOW ([rule_allow_all] ++ rule_quick_deny_aslen5 :: [rule_allow_all])
        (route_with_aslen 7) = rule_quick_deny_aslen5.action) ∧
    (rde_filter_match rule_allow_all (route_with_aslen 7) = true ∧ rule_allow_all.quick = 0 ∧
      rde_filter .ACTION_DENY (rule_allow_all :: []) (route_with_aslen 7) =
        rde_filter rule_allow_all.action [] (route_with_aslen 7)) ∧
    (rde_filter_match rule_quick_deny_aslen5 (route_with_aslen 3) = false ∧
      rde_filter .ACTION_ALLOW (rule_quick_deny_aslen5 :: [rule_allow_all]) (route_with_aslen 3) =
        rde_filter .ACTION_ALLOW [rule_allow_all] (route_with_aslen 3)) ∧
    (5 < (route_with_aslen 7).attrs.aspath_len ∧
      rde_filter .ACTION_ALLOW (rule_quick_deny_aslen5 :: [rule_allow_all]) (route_with_aslen 7) =
        .ACTION_DENY) ∧
    ((route_with_aslen 3).attrs.aspath_len = 3 ∧
      rde_filter .ACTION_DENY (rule_quick_deny_aslen5 :: [rule_allow_all]) (route_with_aslen 3) =
        rde_filter .ACTION_DENY [rule_allow_all] (route_with_aslen 3)) :=
  ⟨⟨by decide, by decide, by decide,
      rde_filter_quick_first_match.1 [rule_allow_all] [rule_allow_all] rule_quick_deny_aslen5
        (route_with_aslen 7) .ACTION_ALLOW (by decide) (by decide) (by decide)⟩,
    ⟨by decide, by decide,
      rde_filter_quick_first_match.2.1 rule_allow_all [] (route_with_aslen 7) .ACTION_DENY
        (by decide) (by decide)⟩,
    ⟨by decide,
      rde_filter_quick_first_match.2.2.1 rule_quick_deny_aslen5 [rule_allow_all]
        (route_with_aslen 3) .ACTION_ALLOW (by decide)⟩,
    ⟨by decide,
      rde_filter_quick_first_match.2.2.2.1 [rule_allow_all] (route_with_aslen 7) .ACTION_ALLOW
        (by decide)⟩,
    ⟨by decide,
      rde_filter_quick_first_match.2.2.2.2 [rule_allow_all] (route_with_aslen 3) .ACTION_DENY
        (by decide)⟩⟩

theorem ctl_step_bound (q : Nat) (ev : ctl_event)
    (h : q < SESSION_CTL_QUEUE_MAX + RDE_RUNNER_ROUNDS) :
    ctl_step q ev < SESSION_CTL_QUEUE_MAX + RDE_RUNNER_ROUNDS := by
  cases ev with
  | rde_round pending =>
    unfold ctl_step se_polls_rde_ctl
    by_cases hq : q < SESSION_CTL_QUEUE_MAX
    · have hr : rde_runner pending ≤ RDE_RUNNER_ROUNDS := Nat.min_le_right _ _
      simp only [hq, decide_True, if_true]
      omega
    · simp only [hq, decide_False]
      exact h
  | drain n =>
    show q - n < SESSION_CTL_QUEUE_MAX + RDE_RUNNER_ROUNDS
    omega

theorem ctl_foldl_bound (evs : List ctl_event) (q : Nat)
    (h : q < SESSION_CTL_QUEUE_MAX + RDE_RUNNER_ROUNDS) :
    evs.foldl ctl_step q < SESSION_CTL_QUEUE_MAX + RDE_RUNNER_ROUNDS := by
  induction evs generalizing q with
  | nil => exact h
  | cons ev rest ih => exact ih _ (ctl_step_bound q ev h)

/-- C4. The RDE generates at most RDE_RUNNER_ROUNDS (100) control messages in
one poll round; once the session engine's queue has hit SESSION_CTL_QUEUE_MAX
(10000) the RDE control socket is not polled, so a poll round adds nothing,
and it is polled again exactly when the queue has drained below the limit;
hence in every reachable state the queue holds fewer than the limit plus one
round's output. -/
theorem ctl_queue_bounded :
    (∀ pending : Nat, rde_runner pending ≤ RDE_RUNNER_ROUNDS) ∧
    RDE_RUNNER_ROUNDS = 100 ∧ SESSION_CTL_QUEUE_MAX = 10000 ∧
    (∀ queued pending : Nat, SESSION_CTL_QUEUE_MAX ≤ queued →
      se_polls_rde_ctl queued = false ∧ ctl_step queued (.rde_round pending) = queued) ∧
    (∀ queued pending : Nat, queued < SESSION_CTL_QUEUE_MAX →
      se_polls_rde_ctl queued = true ∧
      ctl_step queued (.rde_round pending) = queued + rde_runner pending) ∧
    (∀ evs : List ctl_event, ctl_run evs < SESSION_CTL_QUEUE_MAX + RDE_RUNNER_ROUNDS) := by
  refine ⟨fun _ => Nat.min_le_right _ _, rfl, rfl, ?_, ?_, ?_⟩
  · intro q pending hq
    have hq' : ¬ q < SESSION_CTL_QUEUE_MAX := Nat.not_lt.mpr hq
    simp [ctl_step, se_polls_rde_ctl, hq']
  · intro q pending hq
    simp [ctl_step, se_polls_rde_ctl, hq]
  · intro evs
    exact ctl_foldl_bound evs 0 (by decide)

/-- A full queue is not fed by a poll round of a busy RDE, and a queue one
below the limit grows by exactly one round's output. -/
theorem ctl_queue_bounded_witness :
    (SESSION_CTL_QUEUE_MAX ≤ 10000 ∧
      (se_polls_rde_ctl 10000 = false ∧ ctl_step 10000 (.rde_round 500) = 10000)) ∧
    (9999 < SESSION_CTL_QUEUE_MAX ∧
      (se_polls_rde_ctl 9999 = true ∧
        ctl_step 9999 (.rde_round 500) = 9999 + rde_runner 500)) :=
  ⟨⟨by decide, ctl_queue_bounded.2.2.2.1 10000 500 (by decide)⟩,
    ⟨by decide, ctl_queue_bounded.2.2.2.2.1 9999 500 (by decide)⟩⟩

/-- C5. The control result code type `enum ctl_results` has exactly seven
enumerators, which are the seven the spec lists in its order (OK,
no-such-peer, denied, no-capability, parse-error, pending, out-of-memory);
they are numbered 0 through 6 in that order, the codes are pairwise distinct,
and OK is the zero code. -/
theorem ctl_results_codes :
    enum_names ctl_results_decl = spec_ctl_results ∧
    spec_ctl_results.length = 7 ∧
    (∀ c : ctl_results, c ∈ spec_ctl_results) ∧
    spec_ctl_results.map (enum_code ctl_results_decl) =
      [some 0, some 1, some 2, some 3, some 4, some 5, some 6] ∧
    (enum_values ctl_results_decl).Nodup ∧
    enum_code ctl_results_decl .CTL_RES_OK = some 0 := by
  refine ⟨rfl, rfl, ?_, by decide, by decide, by decide⟩
  intro c
  cases c <;> decide

/-- C6. Every error class and every error subtype the spec lists carries the
numeric code equal to its 1-based position in the spec's list: the six classes
are 1 to 6, the eleven update-error subtypes 1 to 11, the eight cease subtypes
1 to 8; and within each of the three enumerations the codes of all declared
enumerators are pairwise distinct. -/
theorem error_codes_positions :
    spec_err_classes.map (enum_code err_codes_decl) =
      [some 1, some 2, some 3, some 4, some 5, some 6] ∧
    spec_update_subtypes.map (enum_code suberr_update_decl) =
      [some 1, some 2, some 3, some 4, some 5, some 6, some 7, some 8, some 9, some 10,
       some 11] ∧
    spec_cease_subtypes.map (enum_code suberr_cease_decl) =
      [some 1, some 2, some 3, some 4, some 5, some 6, some 7, some 8] ∧
    (enum_values err_codes_decl).Nodup ∧
    (enum_values suberr_update_decl).Nodup ∧
    (enum_values suberr_cease_decl).Nodup := by
  refine ⟨by decide, by decide, by decide, by decide, by decide, by decide⟩

/-- C7, as stated, fails: the program declares the update-error subcode
ERR_UPD_UNSPECIFIC (code 0), which is none of the eleven subtypes the spec
lists, so the taxonomy is not exhaustive. -/
theorem taxonomy_not_exhaustive :
    suberr_update.ERR_UPD_UNSPECIFIC ∈ enum_names suberr_update_decl ∧
    enum_code suberr_update_decl .ERR_UPD_UNSPECIFIC = some 0 ∧
    suberr_update.ERR_UPD_UNSPECIFIC ∉ spec_update_subtypes ∧
    ¬ taxonomy_exhaustive := by
  refine ⟨by decide, by decide, by decide, ?_⟩
  intro h
  exact absurd (h.2.1 .ERR_UPD_UNSPECIFIC (by decide)) (by decide)

/-- C7, amended. The error classes and the cease subcodes the program declares
are exactly the six classes and the eight cease subtypes the spec lists; the
program declares twelve update-error subcodes, the eleven the spec lists
preceded by ERR_UPD_UNSPECIFIC (code 0), which the spec does not list. -/
theorem taxonomy_exhaustive_up_to_unspecific :
    enum_names err_codes_decl = spec_err_classes ∧
    enum_names suberr_cease_decl = spec_cease_subtypes ∧
    enum_names suberr_update_decl = .ERR_UPD_UNSPECIFIC :: spec_update_subtypes ∧
    (∀ c : err_codes, c ∈ spec_err_classes) ∧
    (∀ c : suberr_cease, c ∈ spec_cease_subtypes) ∧
    (∀ u : suberr_update, u = .ERR_UPD_UNSPECIFIC ∨ u ∈ spec_update_subtypes) ∧
    spec_err_classes.length = 6 ∧ spec_update_subtypes.length = 11 ∧
    spec_cease_subtypes.length = 8 ∧ (enum_names suberr_update_decl).length = 12 ∧
    enum_code suberr_update_decl .ERR_UPD_UNSPECIFIC = some 0 := by
  refine ⟨rfl, rfl, rfl, ?_, ?_, ?_, rfl, rfl, rfl, rfl, by decide⟩
  · intro c
    cases c <;> decide
  · intro c
    cases c <;> decide
  · intro u
    cases u <;> decide

theorem and_two_pow_eq_zero_iff (f k : Nat) : f &&& 2 ^ k = 0 ↔ f.testBit k = false := by
  constructor
  · intro h
    have h2 : (f &&& 2 ^ k).testBit k = false := by rw [h]; exact Nat.zero_testBit k
    rw [Nat.testBit_and, Nat.testBit_two_pow_self, Bool.and_true] at h2
    exact h2
  · intro h
    apply Nat.eq_of_testBit_eq
    intro i
    rw [Nat.testBit_and, Nat.testBit_two_pow, Nat.zero_testBit]
    by_cases hki : k = i
    · subst hki
      simp [h]
    · simp [hki]

theorem pref_mask_eq_two_pow (s : pref_status) : pref_mask s = 2 ^ pref_bit s := by
  cases s <;> rfl

theorem pref_bit_lt (s : pref_status) : pref_bit s < 16 := by
  cases s <;> decide

theorem pref_bit_inj (s t : pref_status) : pref_bit s = pref_bit t ↔ s = t := by
  cases s <;> cases t <;> decide

theorem pref_foldl_testBit (S : List pref_status) (f k : Nat) :
    (S.foldl (fun g s => g ||| pref_mask s) f).testBit k =
      (f.testBit k || S.any (fun s => decide (pref_bit s = k))) := by
  induction S generalizing f with
  | nil => simp
  | cons s rest ih =>
    rw [List.foldl_cons, ih, Nat.testBit_or, pref_mask_eq_two_pow, Nat.testBit_two_pow,
      List.any_cons, Bool.or_assoc]

/-- C8. The five path status flags eligible, active, internal, announced and
stale are the pairwise distinct single-bit masks 0x01, 0x02, 0x04, 0x08 and
0x10; for every collection S of statuses, OR-ing the masks of S into the
16-bit flags field and testing each of the five masks recovers exactly S. -/
theorem pref_flags_roundtrip :
    pref_statuses.map pref_mask = [0x01, 0x02, 0x04, 0x08, 0x10] ∧
    (∀ s : pref_status, s ∈ pref_statuses ∧ pref_mask s = 2 ^ pref_bit s) ∧
    (pref_statuses.map pref_mask).Nodup ∧
    (∀ (S : List pref_status) (s : pref_status),
      pref_flags_of S < 2 ^ 16 ∧ pref_flag_test (pref_flags_of S) s = decide (s ∈ S)) := by
  refine ⟨rfl, ?_, by decide, ?_⟩
  · intro s
    exact ⟨by cases s <;> decide, pref_mask_eq_two_pow s⟩
  · intro S s
    refine ⟨Nat.mod_lt _ (by decide), ?_⟩
    have hbit : (pref_flags_of S).testBit (pref_bit s) = decide (s ∈ S) := by
      unfold pref_flags_of
      rw [Nat.testBit_mod_two_pow, pref_foldl_testBit]
      simp only [pref_bit_lt s, decide_True, Bool.true_and, Nat.zero_testBit, Bool.false_or]
      rw [Bool.eq_iff_iff]
      simp only [List.any_eq_true, decide_eq_true_eq]
      constructor
      · rintro ⟨t, ht, hts⟩
        rwa [← (pref_bit_inj t s).mp hts]
      · intro hs
        exact ⟨s, hs, rfl⟩
    unfold pref_flag_test
    rw [← hbit, pref_mask_eq_two_pow]
    cases hb : (pref_flags_of S).testBit (pref_bit s)
    · simp [(and_two_pow_eq_zero_iff _ _).mpr hb]
    · have hne : pref_flags_of S &&& 2 ^ pref_bit s ≠ 0 := by
        intro h0
        rw [(and_two_pow_eq_zero_iff _ _).mp h0] at hb
        cases hb
      simp [hne]

/-- C9. The address-family discriminants are AID_UNSPEC = 0, AID_INET = 1,
AID_INET6 = 2 and AID_VPN_IPv4 = 3, exactly the values below AID_MAX = 4; the
table AID_VALS has AID_MAX rows, row i describing AID i; distinct rows carry
distinct (AFI, SAFI) pairs; so for every AID below AID_MAX the row of that AID
is the only row with its pair, and looking up the pair of the AID gives back
the AID. -/
theorem aid_afi_roundtrip :
    [AID_UNSPEC, AID_INET, AID_INET6, AID_VPN_IPv4] = [0, 1, 2, 3] ∧ AID_MAX = 4 ∧
    (∀ a : Nat, a < AID_MAX ↔ a ∈ [AID_UNSPEC, AID_INET, AID_INET6, AID_VPN_IPv4]) ∧
    aid_vals.length = AID_MAX ∧
    aid_vals[AID_UNSPEC]? = some ⟨AFI_UNSPEC, .AF_UNSPEC, SAFI_NONE, "unspec"⟩ ∧
    aid_vals[AID_INET]? = some ⟨AFI_IPv4, .AF_INET, SAFI_UNICAST, "IPv4 unicast"⟩ ∧
    aid_vals[AID_INET6]? = some ⟨AFI_IPv6, .AF_INET6, SAFI_UNICAST, "IPv6 unicast"⟩ ∧
    aid_vals[AID_VPN_IPv4]? = some ⟨AFI_IPv4, .AF_INET, SAFI_MPLSVPN, "IPv4 vpn"⟩ ∧
    (aid_vals.map (fun r => (r.afi, r.safi))).Nodup ∧
    (∀ a : Nat, a < AID_MAX →
      (∀ b : Nat, b < AID_MAX →
        (aid_vals[b]?).map (fun r => (r.afi, r.safi)) =
          (aid_vals[a]?).map (fun r => (r.afi, r.safi)) → b = a) ∧
      (aid2afi a).bind (fun p => afi2aid p.1 p.2) = some a) := by
  refine ⟨rfl, rfl, ?_, rfl, rfl, rfl, rfl, rfl, by decide, ?_⟩
  · intro a
    simp only [AID_MAX, AID_UNSPEC, AID_INET, AID_INET6, AID_VPN_IPv4, List.mem_cons,
      List.mem_singleton, List.not_mem_nil, or_false]
    omega
  · intro a ha
    have ha4 : a < 4 := ha
    constructor
    · intro b hb
      have hb4 : b < 4 := hb
      interval_cases a <;> interval_cases b <;> decide
    · interval_cases a <;> decide

/-- The VPN-IPv4 discriminant: its row shares the AFI with IPv4 unicast and is
told apart by the SAFI, so the lookup of (AFI_IPv4, SAFI_MPLSVPN) gives it back. -/
theorem aid_afi_roundtrip_witness :
    AID_VPN_IPv4 < AID_MAX ∧ aid2afi AID_VPN_IPv4 = some (AFI_IPv4, SAFI_MPLSVPN) ∧
    aid2afi AID_INET = some (AFI_IPv4, SAFI_UNICAST) ∧
    AID_VPN_IPv4 = AID_VPN_IPv4 ∧
    (aid2afi AID_VPN_IPv4).bind (fun p => afi2aid p.1 p.2) = some AID_VPN_IPv4 :=
  ⟨by decide, by decide, by decide,
    (aid_afi_roundtrip.2.2.2.2.2.2.2.2.2 AID_VPN_IPv4 (by decide)).1 AID_VPN_IPv4 (by decide) rfl,
    (aid_afi_roundtrip.2.2.2.2.2.2.2.2.2 AID_VPN_IPv4 (by decide)).2⟩

/-- C10, as stated, fails: the members of the VPN-IPv4 record alone take
8 + 4 + 21 + 1 + 1 + 1 = 36 bytes, more than the 32 bytes of the raw view. -/
theorem vpn4_exceeds_raw_view :
    fields_bytes vpn4_addr_fields = 36 ∧ member_bytes addr8_member = 32 ∧
    ¬ addr_variants_fit_raw_view := by
  refine ⟨by decide, by decide, ?_⟩
  intro h
  exact absurd h.2.2.2.2.2 (by decide)

/-- C10, amended. The raw views addr8[32], addr16[16] and addr32[8] each span
32 bytes (256 bits); the IPv4 (4 bytes) and IPv6 (16 bytes) variants fit within
them; the VPN-IPv4 record has 36 bytes of members (40 with natural alignment)
and extends beyond the raw view, so the union is as large as the VPN-IPv4
record, its largest member. -/
theorem addr_storage_sizes :
    member_bytes addr8_member = 32 ∧ member_bytes addr16_member = 32 ∧
    member_bytes addr32_member = 32 ∧ 32 * 8 = 256 ∧
    member_bytes in_addr_member = 4 ∧ member_bytes in6_addr_member = 16 ∧
    vpn4_addr_fields.map member_bytes = [8, 4, 21, 1, 1, 1] ∧
    fields_bytes vpn4_addr_fields = 36 ∧
    fields_bytes vpn4_addr_fields ≤ struct_sizeof vpn4_addr_fields ∧
    struct_sizeof vpn4_addr_fields = 40 ∧
    32 < member_bytes vpn4_member ∧
    union_sizeof bgpd_addr_ba = member_bytes vpn4_member := by
  decide

/-- C11. Each of the four extended-community value encodings carries exactly
48 bits of value: a 16-bit AS with a 32-bit value, a 32-bit AS with a 16-bit
value, an IPv4 address with a 16-bit value, and the opaque value, which is
kept in a 64-bit member and bounded by EXT_COMMUNITY_OPAQUE_MAX = 2^48 - 1,
the largest 48-bit value; each encoding has 2^48 distinct values. -/
theorem ext_community_value_48_bits :
    ext_as_fields.map member_bits = [16, 32] ∧ value_bits ext_as_fields = 48 ∧
    ext_as4_fields.map member_bits = [32, 16] ∧ value_bits ext_as4_fields = 48 ∧
    ext_ip_fields.map member_bits = [32, 16] ∧ value_bits ext_ip_fields = 48 ∧
    EXT_COMMUNITY_OPAQUE_MAX = 2 ^ 48 - 1 ∧
    (∀ v : Nat, v ≤ EXT_COMMUNITY_OPAQUE_MAX ↔ v < 2 ^ 48) ∧
    EXT_COMMUNITY_OPAQUE_MAX < 2 ^ member_bits ext_opaq_member ∧
    value_count ext_as_fields = 2 ^ 48 ∧ value_count ext_as4_fields = 2 ^ 48 ∧
    value_count ext_ip_fields = 2 ^ 48 ∧ EXT_COMMUNITY_OPAQUE_MAX + 1 = 2 ^ 48 := by
  refine ⟨by decide, by decide, by decide, by decide, by decide, by decide, by decide, ?_,
    by decide, by decide, by decide, by decide, by decide⟩
  intro v
  have h : EXT_COMMUNITY_OPAQUE_MAX + 1 = 2 ^ 48 := by decide
  omega

/-- C12. The reserved transition AS value AS_TRANS is 23456; it is non-zero
and strictly below 2^16, so storing it into any 2-byte AS field (short_as,
local_short_as) or 4-byte AS field reads back the same value. -/
theorem as_trans_representable :
    AS_TRANS = 23456 ∧ 0 < AS_TRANS ∧ AS_TRANS < 2 ^ 16 ∧
    short_as_members.map member_bits = [16, 16, 16] ∧
    short_as_members.map (fun m => member_store m AS_TRANS) = [AS_TRANS, AS_TRANS, AS_TRANS] ∧
    long_as_members.map member_bits = [32, 32, 32, 32] ∧
    long_as_members.map (fun m => member_store m AS_TRANS) =
      [AS_TRANS, AS_TRANS, AS_TRANS, AS_TRANS] := by
  refine ⟨rfl, by decide, by decide, by decide, by decide, by decide, by decide⟩

theorem or_and_of_disjoint (f x y : Nat) (h : x &&& y = 0) : (f ||| x) &&& y = f &&& y := by
  rw [Nat.and_distrib_right, h, Nat.or_zero]

theorem and_and_of_kept (f n y : Nat) (h : n &&& y = y) : (f &&& n) &&& y = f &&& y := by
  rw [Nat.and_assoc, h]

theorem mod_and_of_lt (g y k : Nat) (h : (2 ^ k - 1) &&& y = y) : (g % 2 ^ k) &&& y = g &&& y := by
  rw [← Nat.and_pow_two_sub_one_eq_mod, Nat.and_assoc, h]

theorem flag_set_test (f x y : Nat) (hxy : x &&& y = 0) (hy : (2 ^ 32 - 1) &&& y = y) :
    flag_test (flag_set f x) y = flag_test f y := by
  unfold flag_test flag_set
  rw [mod_and_of_lt _ _ _ hy, or_and_of_disjoint _ _ _ hxy]

theorem flag_clear_test (f x y : Nat) (hxy : (2 ^ 32 - 1 - x) &&& y = y)
    (hy : (2 ^ 32 - 1) &&& y = y) : flag_test (flag_clear f x) y = flag_test f y := by
  unfold flag_test flag_clear
  rw [mod_and_of_lt _ _ _ hy, and_and_of_kept _ _ _ hxy]

/-- C13. The three decision-process flags (route-age 0x0100, transparent-AS
0x0200, MED-always 0x0400) are pairwise distinct single bits, each contained
in BGPD_FLAG_DECISION_MASK (0x0f00); the decision mask shares no bit with the
other global configuration flags (no-evaluate 0x0002, reflector 0x0004,
nexthop-bgp 0x0080, nexthop-default 0x1000); and for every flags word f and
every one of the seven flags X, setting or clearing X in f leaves the test
f & Y of every other flag Y unchanged. -/
theorem bgpd_flags_independent :
    decision_flags = [2 ^ 8, 2 ^ 9, 2 ^ 10] ∧ decision_flags.Nodup ∧
    BGPD_FLAG_DECISION_MASK = 0x0f00 ∧
    decision_flags.map (fun x => x &&& BGPD_FLAG_DECISION_MASK) = decision_flags ∧
    other_flags = [0x0002, 0x0004, 0x0080, 0x1000] ∧
    other_flags.map (fun x => x &&& BGPD_FLAG_DECISION_MASK) = [0, 0, 0, 0] ∧
    (∀ (f : Nat) (X Y : bgpd_flag), X ≠ Y →
      flag_test (flag_set f (bgpd_flag_mask X)) (bgpd_flag_mask Y) =
        flag_test f (bgpd_flag_mask Y) ∧
      flag_test (flag_clear f (bgpd_flag_mask X)) (bgpd_flag_mask Y) =
        flag_test f (bgpd_flag_mask Y)) := by
  refine ⟨by decide, by decide, rfl, by decide, rfl, by decide, ?_⟩
  intro f X Y hXY
  constructor
  · apply flag_set_test
    · revert hXY
      cases X <;> cases Y <;> decide
    · cases Y <;> decide
  · apply flag_clear_test
    · revert hXY
      cases X <;> cases Y <;> decide
    · cases Y <;> decide

/-- Setting or clearing MED-always in a word with route-age and reflector set
leaves the route-age test at 0x0100. -/
theorem bgpd_flags_independent_witness :
    bgpd_flag.DECISION_MED_ALWAYS ≠ bgpd_flag.DECISION_ROUTEAGE ∧
    (flag_test (flag_set 0x0104 (bgpd_flag_mask .DECISION_MED_ALWAYS))
        (bgpd_flag_mask .DECISION_ROUTEAGE) =
        flag_test 0x0104 (bgpd_flag_mask .DECISION_ROUTEAGE) ∧
      flag_test (flag_clear 0x0104 (bgpd_flag_mask .DECISION_MED_ALWAYS))
        (bgpd_flag_mask .DECISION_ROUTEAGE) =
        flag_test 0x0104 (bgpd_flag_mask .DECISION_ROUTEAGE)) ∧
    flag_test 0x0104 (bgpd_flag_mask .DECISION_ROUTEAGE) = 0x0100 ∧
    flag_set 0x0104 (bgpd_flag_mask .DECISION_MED_ALWAYS) = 0x0504 :=
  ⟨by decide,
    bgpd_flags_independent.2.2.2.2.2.2 0x0104 .DECISION_MED_ALWAYS .DECISION_ROUTEAGE (by decide),
    by decide, by decide⟩

theorem ext_type_recombine_eq (b : Nat) (hb : b < 256) : ext_type_recombine b = b := by
  unfold ext_type_recombine
  rw [← Nat.and_or_distrib_left, ← Nat.and_or_distrib_left]
  have hm : EXT_COMMUNITY_IANA ||| EXT_COMMUNITY_TRANSITIVE ||| EXT_COMMUNITY_VALUE = 2 ^ 8 - 1 := by
    decide
  rw [hm, Nat.and_pow_two_sub_one_eq_mod]
  exact Nat.mod_eq_of_lt hb

/-- C14. The extended-community type-byte masks IANA (0x80), transitive (0x40)
and value (0x3f) are pairwise disjoint and together cover all eight bits: for
every byte b, (b & 0x80) | (b & 0x40) | (b & 0x3f) = b; and each extended type
code (two-AS 0, IPv4 1, four-AS 2, opaque 3), including the type of every row
of the IANA_EXT_COMMUNITIES table, lies within the value mask and sets neither
the IANA nor the transitive bit. -/
theorem ext_type_masks_partition :
    [EXT_COMMUNITY_IANA, EXT_COMMUNITY_TRANSITIVE, EXT_COMMUNITY_VALUE] = [0x80, 0x40, 0x3f] ∧
    EXT_COMMUNITY_IANA &&& EXT_COMMUNITY_TRANSITIVE = 0 ∧
    EXT_COMMUNITY_IANA &&& EXT_COMMUNITY_VALUE = 0 ∧
    EXT_COMMUNITY_TRANSITIVE &&& EXT_COMMUNITY_VALUE = 0 ∧
    EXT_COMMUNITY_IANA ||| EXT_COMMUNITY_TRANSITIVE ||| EXT_COMMUNITY_VALUE = 0xff ∧
    (∀ b : Nat, b < 256 → ext_type_recombine b = b) ∧
    ext_community_types = [0, 1, 2, 3] ∧
    (∀ t ∈ ext_community_types,
      t &&& EXT_COMMUNITY_VALUE = t ∧ t &&& EXT_COMMUNITY_IANA = 0 ∧
      t &&& EXT_COMMUNITY_TRANSITIVE = 0) ∧
    IANA_EXT_COMMUNITIES.length = 10 ∧
    (∀ r ∈ IANA_EXT_COMMUNITIES,
      r.type ∈ ext_community_types ∧ r.type &&& EXT_COMMUNITY_VALUE = r.type ∧
      r.type &&& EXT_COMMUNITY_IANA = 0 ∧ r.type &&& EXT_COMMUNITY_TRANSITIVE = 0) := by
  refine ⟨rfl, by decide, by decide, by decide, by decide, ext_type_recombine_eq, rfl,
    by decide, rfl, by decide⟩

/-- The byte 0xc3 (IANA and transitive bits set, opaque type) is recovered from
its three parts; the opaque type code and the opaque row of the table lie
within the value mask. -/
theorem ext_type_masks_partition_witness :
    (0xc3 < 256 ∧ ext_type_recombine 0xc3 = 0xc3) ∧
    (EXT_COMMUNITY_OPAQUE ∈ ext_community_types ∧
      (EXT_COMMUNITY_OPAQUE &&& EXT_COMMUNITY_VALUE = EXT_COMMUNITY_OPAQUE ∧
        EXT_COMMUNITY_OPAQUE &&& EXT_COMMUNITY_IANA = 0 ∧
        EXT_COMMUNITY_OPAQUE &&& EXT_COMMUNITY_TRANSITIVE = 0)) ∧
    ((⟨EXT_COMMUNITY_OPAQUE, EXT_COMMUNITY_OSPF_RTR_TYPE, 0⟩ : ext_comm_pairs) ∈
        IANA_EXT_COMMUNITIES ∧
      (EXT_COMMUNITY_OPAQUE ∈ ext_community_types ∧
        EXT_COMMUNITY_OPAQUE &&& EXT_COMMUNITY_VALUE = EXT_COMMUNITY_OPAQUE ∧
        EXT_COMMUNITY_OPAQUE &&& EXT_COMMUNITY_IANA = 0 ∧
        EXT_COMMUNITY_OPAQUE &&& EXT_COMMUNITY_TRANSITIVE = 0)) :=
  ⟨⟨by decide, ext_type_masks_partition.2.2.2.2.2.1 0xc3 (by decide)⟩,
    ⟨by decide, ext_type_masks_partition.2.2.2.2.2.2.2.1 EXT_COMMUNITY_OPAQUE (by decide)⟩,
    ⟨by decide,
      ext_type_masks_partition.2.2.2.2.2.2.2.2.2
        ⟨EXT_COMMUNITY_OPAQUE, EXT_COMMUNITY_OSPF_RTR_TYPE, 0⟩ (by decide)⟩⟩

theorem foldl_or_lt_two_pow (n : Nat) (S : List Nat) (acc : Nat) (hacc : acc < 2 ^ n)
    (hS : ∀ x ∈ S, x < 2 ^ n) : S.foldl (fun f x => f ||| x) acc < 2 ^ n := by
  induction S generalizing acc with
  | nil => exact hacc
  | cons x rest ih =>
    rw [List.foldl_cons]
    exact ih _ (Nat.or_lt_two_pow hacc (hS x (List.mem_cons_self _ _)))
      (fun y hy => hS y (List.mem_cons_of_mem _ hy))

theorem route_ctl_flags_lt : ∀ x ∈ route_ctl_flags, x < 2 ^ 16 := by
  decide

/-- C15. The sixteen route and control flags F_BGPD_INSERTED through
F_CTL_ACTIVE are the pairwise distinct single-bit masks 2^0 to 2^15, whose
bitwise OR is 0xffff: every bit of a 16-bit flags field (kroute.flags,
kroute_full.flags, ctl_show_rib_request.flags) is the bit of exactly one flag,
and every combination of the flags fits in 16 bits, so storing it into such a
field reads back the same value. -/
theorem route_ctl_flags_partition :
    route_ctl_flags.length = 16 ∧
    route_ctl_flags = (List.range 16).map (fun k => 2 ^ k) ∧
    route_ctl_flags.Nodup ∧
    flags_or route_ctl_flags = 0xffff ∧
    flags_members.map member_bits = [16, 16, 16] ∧
    (∀ k : Nat, k < 16 → flags_with_bit k = [2 ^ k]) ∧
    (∀ S : List Nat, (∀ x ∈ S, x ∈ route_ctl_flags) →
      flags_or S < 2 ^ 16 ∧
      flags_members.map (fun m => member_store m (flags_or S)) =
        [flags_or S, flags_or S, flags_or S]) := by
  refine ⟨rfl, by decide, by decide, by decide, by decide, ?_, ?_⟩
  · intro k hk
    interval_cases k <;> decide
  · intro S hS
    have hlt : flags_or S < 2 ^ 16 :=
      foldl_or_lt_two_pow 16 S 0 (by decide) (fun x hx => route_ctl_flags_lt x (hS x hx))
    refine ⟨hlt, ?_⟩
    have hst : member_store u16_member (flags_or S) = flags_or S := Nat.mod_eq_of_lt hlt
    simp only [flags_members, List.map_cons, List.map_nil, hst]

/-- Bit 15 belongs to F_CTL_ACTIVE alone, and the combination of F_KERNEL,
F_MPLS and F_CTL_ACTIVE is 0x8402, which fits the 16-bit fields. -/
theorem route_ctl_flags_partition_witness :
    (15 < 16 ∧ flags_with_bit 15 = [2 ^ 15] ∧ F_CTL_ACTIVE = 2 ^ 15) ∧
    ((∀ x ∈ [F_KERNEL, F_MPLS, F_CTL_ACTIVE], x ∈ route_ctl_flags) ∧
      (flags_or [F_KERNEL, F_MPLS, F_CTL_ACTIVE] < 2 ^ 16 ∧
        flags_members.map (fun m => member_store m (flags_or [F_KERNEL, F_MPLS, F_CTL_ACTIVE])) =
          [flags_or [F_KERNEL, F_MPLS, F_CTL_ACTIVE], flags_or [F_KERNEL, F_MPLS, F_CTL_ACTIVE],
           flags_or [F_KERNEL, F_MPLS, F_CTL_ACTIVE]]) ∧
      flags_or [F_KERNEL, F_MPLS, F_CTL_ACTIVE] = 0x8402) :=
  ⟨⟨by decide, route_ctl_flags_partition.2.2.2.2.2.1 15 (by decide), rfl⟩,
    ⟨by decide,
      route_ctl_flags_partition.2.2.2.2.2.2 [F_KERNEL, F_MPLS, F_CTL_ACTIVE] (by decide),
      by decide⟩⟩

end Bgpd
